import Mathlib

/-!
Shallow embedding of `src/_fin_sets.py` (the `cas` finite-set library).

The Python module defines:

* `FSet` — a finite-set class whose constructor classifies each argument
  (container / the value `0` / anything else) and stores a `frozenset` of the
  resulting elements.  `FSet` overrides `__hash__` (hashing the frozenset of
  elements) but does **not** override `__eq__`, so `==` between two `FSet`
  objects is Python object identity.  Because element membership inside the
  stored `frozenset` also uses `==`, object identity is observable
  everywhere.  We therefore embed `FSet` objects as addresses into a store
  (one entry per allocated object); construction allocates a fresh address,
  exactly as CPython allocates a fresh object.  The stored `frozenset` is a
  duplicate-free list of element addresses in insertion order (a frozenset
  iterates in an arbitrary but fixed order; where that order could matter it
  is noted at the definition it concerns).
* `FFSet` — an abstract subclass whose containment and order methods return
  `NotImplemented`.
* `FCardinal` — a numeric wrapper around an integer `value`, with arithmetic
  delegating to Python integer arithmetic.

Python exceptions are embedded with `Except`; Python floor division and
modulo are `Int.fdiv` and `Int.fmod`; Python bitwise operations on
arbitrary integers are the two's-complement `Int.land` / `Int.lor` /
`Int.xor`.
-/

/-- Address of an `FSet` object in the store. -/
abbrev Addr := Nat

/-- The store: position `a` holds the frozenset `self.s` (the duplicate-free
list of element addresses) of the `FSet` object allocated `a`-th.
Allocation appends at the end, so every element address of an object is
strictly smaller than its own. -/
abbrev Store := List (List Addr)

/-- Exceptions raised by the Python code. -/
inductive PyError where
  | typeError
  | valueError
  | zeroDivision
  | attributeError
deriving DecidableEq, Repr

deriving instance DecidableEq for Except

/-- Python values that can be passed to `FSet(*args)`:
an existing `FSet` object (by reference), a native container
(`list` / `tuple` / `set` / `frozenset`; modelled by its element list —
for the unordered containers the iteration order is arbitrary but
immaterial, because the result is a set and every failure case fails on
the offending element irrespective of order), an `int`, or any other
object such as the string `"x"` (whose payload never matters: the
constructor only inspects its type). -/
inductive PyVal where
  | fset (a : Addr)
  | pyList (xs : List PyVal)
  | pyInt (n : Int)
  | pyStr

/-- Elements (`self.s`) of the object at address `a`. -/
def elemsOf (st : Store) (a : Addr) : List Addr :=
  st.getD a []

/-- The loop body `s.add(arg)` of `FSet.__init__`: `set.add` compares the
new element against the members with `==`, which for `FSet` objects is
object identity, so an address already present is not added again. -/
def pySetAdd (l : List Addr) (a : Addr) : List Addr :=
  if a ∈ l then l else l ++ [a]

/-- Classification of one argument inside the loop of `FSet.__init__`,
returning the address of the `FSet` object the argument stands for.
Mirrors the source chain

* `isinstance(arg, (list, tuple, set, frozenset))` → `arg = FSet(*arg)`:
  the recursive constructor call processes the container items and then
  allocates the new object (the inlined body of `fsetNew`);
* `elif arg == 0` → `arg = FSet()`, allocating a fresh empty object
  (this branch is reached only by the integer `0`: an `FSet` has no
  `__eq__`, so `arg == 0` is false for it);
* `elif isinstance(arg, int)` → `raise ValueError`;
* `else` → `raise TypeError` — this is where an **existing `FSet`
  object** lands, since no branch tests `isinstance(arg, FSet)`.

The helper `fsetArgs` is the loop `for arg in args` itself: it classifies
the arguments from left to right, threading the store and accumulating
`s.add(arg)` via `pySetAdd`. -/
def fsetArg : PyVal → Store → Except PyError (Store × Addr)
  | .pyList xs, st =>
    match fsetArgs xs st [] with
    | .error e => .error e
    | .ok (st2, s) => .ok (st2 ++ [s], st2.length)
  | .pyInt n, st =>
    if n = 0 then .ok (st ++ [[]], st.length)
    else .error .valueError
  | .fset _, _ => .error .typeError
  | .pyStr, _ => .error .typeError
where
  fsetArgs : List PyVal → Store → List Addr → Except PyError (Store × List Addr)
    | [], st, acc => .ok (st, acc)
    | arg :: rest, st, acc =>
      match fsetArg arg st with
      | .error e => .error e
      | .ok (st2, a) => fsetArgs rest st2 (pySetAdd acc a)

/-- Full constructor call `FSet(*args)`: run the classification loop over
the arguments, then allocate the new object (`self.s = frozenset(s)`),
returning its address. -/
def fsetNew (args : List PyVal) (st : Store) : Except PyError (Store × Addr) :=
  match fsetArg.fsetArgs args st [] with
  | .error e => .error e
  | .ok (st2, s) => .ok (st2 ++ [s], st2.length)

/-- Python `==` between two `FSet` objects.  `FSet` defines `__hash__` but
no `__eq__`, so equality defaults to `object.__eq__`: identity of the two
objects, i.e. equality of their addresses. -/
def fsetEq (a b : Addr) : Bool :=
  a == b

/-- Structural (extensional) comparison of two objects in the store — the
equality the spec postulates.  Not part of the source; used only to state
that the objects a failing input produces really are extensionally equal.
Fuelled recursion (the fuel bound is immaterial at the concrete stores
where it is used, since elements are always at smaller addresses). -/
def structEq : Nat → Store → Addr → Addr → Bool
  | 0, _, a, b => a == b
  | fuel + 1, st, a, b =>
    (elemsOf st a).all (fun x => (elemsOf st b).any (fun y => structEq fuel st x y)) &&
    (elemsOf st b).all (fun y => (elemsOf st a).any (fun x => structEq fuel st x y))

/-- `FCardinal`: a finite cardinal wrapping the integer `self.value`.
`FCardinal.__init__` coerces with `int(value)`, so the magnitude is an
arbitrary-precision Python integer. -/
structure FCardinal where
  value : Int
deriving DecidableEq, Repr

/-- `fset_length` / the `length` property: `FCardinal(len(self.s))`.
The magnitude is the one-level element count. -/
def fsetLength (st : Store) (a : Addr) : FCardinal :=
  ⟨(elemsOf st a).length⟩

/-- `FSet.__add__`: `FSet(*self.s, *FSet(other).s)`.  Python first
evaluates the inner `FSet(other)` (allocating it), then calls the outer
constructor, whose unpacked arguments are all existing `FSet` objects. -/
def fsetAdd (st : Store) (a : Addr) (other : PyVal) : Except PyError (Store × Addr) :=
  match fsetNew [other] st with
  | .error e => .error e
  | .ok (st2, b) =>
    fsetNew ((elemsOf st2 a).map .fset ++ (elemsOf st2 b).map .fset) st2

/-- `FSet.power`:
`FSet(*chain.from_iterable(combinations(list(self.s), r) for r in range(len(self.s) + 1)))`.
Each argument of the outer constructor is one combination — a tuple of
existing `FSet` objects.  `itertools.combinations` over the distinct
elements enumerates every subset exactly once, by size; it is modelled by
`List.sublists`, which enumerates exactly the same subsets (the
enumeration order never affects the result, a set, nor which exception is
raised: any nonempty combination holds an `FSet` reference). -/
def fsetPower (st : Store) (a : Addr) : Except PyError (Store × Addr) :=
  fsetNew (((elemsOf st a).sublists).map (fun l => .pyList (l.map .fset))) st

/-- Sequentially construct `FSet(*x)` for every pair `x`, as the list
comprehension `[FSet(*x) for x in itertools.product(self.s, other.s)]`
does, threading the store and collecting the addresses. -/
def buildPairSets : List (Addr × Addr) → Store → Except PyError (Store × List Addr)
  | [], st => .ok (st, [])
  | (x, y) :: rest, st =>
    match fsetNew [.fset x, .fset y] st with
    | .error e => .error e
    | .ok (st2, p) =>
      match buildPairSets rest st2 with
      | .error e => .error e
      | .ok (st3, ps) => .ok (st3, p :: ps)

/-- `FSet.__mul__`:
`FSet(*[FSet(*x) for x in itertools.product(self.s, other.s)])`.
The comprehension runs first, building one pair set per `(a, b)`; the
outer constructor then receives those existing `FSet` objects.
`itertools.product` iterates row-major over the two frozensets. -/
def fsetMul (st : Store) (a b : Addr) : Except PyError (Store × Addr) :=
  match buildPairSets ((elemsOf st a).product (elemsOf st b)) st with
  | .error e => .error e
  | .ok (st2, ps) => fsetNew (ps.map .fset) st2

/-- The `FCardinal.set` property for a non-negative magnitude `n`:

* `value == 0` → `FSet()`;
* `value == 1` → `FSet(FSet())` — the inner `FSet()` is allocated first
  and then passed, as an existing object, to the outer constructor;
* otherwise → `s = (self - FCardinal(1)).set; return s + s`.

A negative magnitude never reaches a base case in the source (unbounded
recursion), so the model is indexed by `n : Nat` with `value = n`. -/
def cardSet : Nat → Store → Except PyError (Store × Addr)
  | 0, st => fsetNew [] st
  | 1, st =>
    match fsetNew [] st with
    | .error e => .error e
    | .ok (st2, a) => fsetNew [.fset a] st2
  | n + 2, st =>
    match cardSet (n + 1) st with
    | .error e => .error e
    | .ok (st2, a) => fsetAdd st2 a (.fset a)

/-- Result of a Python rich-comparison or containment method: either an
actual boolean or the `NotImplemented` sentinel. -/
inductive PyCmpResult where
  | bool (b : Bool)
  | notImplemented
deriving DecidableEq, Repr

/-- Operands a comparison method of `FCardinal` may receive: another
`FCardinal`, a plain `int`, a `str`, or an `FSet` object.  Of these, only
`FCardinal` instances carry a `value` attribute. -/
inductive PyOperand where
  | card (c : FCardinal)
  | int (n : Int)
  | str
  | fsetObj (a : Addr)
deriving DecidableEq, Repr

/-- Whether the operand is an `FCardinal` instance. -/
def PyOperand.isCard : PyOperand → Bool
  | .card _ => true
  | _ => false

/-- Attribute access `other.value`: succeeds only on an `FCardinal`
instance; every other operand raises `AttributeError`. -/
def PyOperand.getValue : PyOperand → Except PyError Int
  | .card c => .ok c.value
  | _ => .error .attributeError

/-- `FFSet.__contains__`: `return NotImplemented`. -/
def FFSet.containsOp (_other : PyOperand) : Except PyError PyCmpResult :=
  .ok .notImplemented

/-- `FFSet.__le__`: `return NotImplemented`. -/
def FFSet.leOp (_other : PyOperand) : Except PyError PyCmpResult :=
  .ok .notImplemented

/-- `FFSet.__lt__`: `return NotImplemented`. -/
def FFSet.ltOp (_other : PyOperand) : Except PyError PyCmpResult :=
  .ok .notImplemented

/-- `FCardinal.__contains__` is not overridden: it is inherited from
`FFSet`, so `self` is ignored and `NotImplemented` is returned. -/
def FCardinal.containsOp (_c : FCardinal) (other : PyOperand) : Except PyError PyCmpResult :=
  FFSet.containsOp other

/-- `FCardinal.__lt__`: `return self.value < other.value` (the attribute
access raises `AttributeError` when `other` has no `value`). -/
def FCardinal.ltOp (c : FCardinal) (other : PyOperand) : Except PyError PyCmpResult :=
  match other.getValue with
  | .error e => .error e
  | .ok v => .ok (.bool (decide (c.value < v)))

/-- `FCardinal.__le__`: `return self.value <= other.value`. -/
def FCardinal.leOp (c : FCardinal) (other : PyOperand) : Except PyError PyCmpResult :=
  match other.getValue with
  | .error e => .error e
  | .ok v => .ok (.bool (decide (c.value ≤ v)))

/-- `FCardinal.__eq__`: `return self.value == other.value`. -/
def FCardinal.eqOp (c : FCardinal) (other : PyOperand) : Except PyError PyCmpResult :=
  match other.getValue with
  | .error e => .error e
  | .ok v => .ok (.bool (decide (c.value = v)))

/-- `FCardinal.__ne__`: `return self.value != other.value`. -/
def FCardinal.neOp (c : FCardinal) (other : PyOperand) : Except PyError PyCmpResult :=
  match other.getValue with
  | .error e => .error e
  | .ok v => .ok (.bool (decide (c.value ≠ v)))

/-- `FCardinal.__gt__`: `return self.value > other.value`. -/
def FCardinal.gtOp (c : FCardinal) (other : PyOperand) : Except PyError PyCmpResult :=
  match other.getValue with
  | .error e => .error e
  | .ok v => .ok (.bool (decide (c.value > v)))

/-- `FCardinal.__ge__`: `return self.value >= other.value`. -/
def FCardinal.geOp (c : FCardinal) (other : PyOperand) : Except PyError PyCmpResult :=
  match other.getValue with
  | .error e => .error e
  | .ok v => .ok (.bool (decide (c.value ≥ v)))

/-- `FCardinal.__add__`: `FCardinal(self.value + other.value)`. -/
def FCardinal.addOp (a b : FCardinal) : FCardinal :=
  ⟨a.value + b.value⟩

/-- `FCardinal.__sub__`: `FCardinal(self.value - other.value)`. -/
def FCardinal.subOp (a b : FCardinal) : FCardinal :=
  ⟨a.value - b.value⟩

/-- `FCardinal.__mul__`: `FCardinal(self.value * other.value)`. -/
def FCardinal.mulOp (a b : FCardinal) : FCardinal :=
  ⟨a.value * b.value⟩

/-- `FCardinal.__floordiv__`: `FCardinal(self.value // other.value)`.
Python `//` is flooring division (`Int.fdiv`) and raises
`ZeroDivisionError` on a zero divisor. -/
def FCardinal.floordivOp (a b : FCardinal) : Except PyError FCardinal :=
  if b.value = 0 then .error .zeroDivision
  else .ok ⟨a.value.fdiv b.value⟩

/-- `FCardinal.__mod__`: `FCardinal(self.value % other.value)`.  Python
`%` takes the sign of the divisor (`Int.fmod`) and raises
`ZeroDivisionError` on a zero divisor. -/
def FCardinal.modOp (a b : FCardinal) : Except PyError FCardinal :=
  if b.value = 0 then .error .zeroDivision
  else .ok ⟨a.value.fmod b.value⟩

/-- `FCardinal.__divmod__`:
`(FCardinal(self.value // self.value), FCardinal(self.value % other.value))`.
The tuple components are evaluated left to right, so a zero `self`
magnitude raises first (from `self.value // self.value`), then a zero
`other` magnitude (from `self.value % other.value`). -/
def FCardinal.divmodOp (a b : FCardinal) : Except PyError (FCardinal × FCardinal) :=
  if a.value = 0 then .error .zeroDivision
  else if b.value = 0 then .error .zeroDivision
  else .ok (⟨a.value.fdiv a.value⟩, ⟨a.value.fmod b.value⟩)

/-- `FCardinal.__pow__` without a modulus:
`FCardinal(self.value ** other.value)`, modelled on the integer domain
(a negative exponent makes Python `**` return a `float`, leaving the
integers), so the exponent enters as `toNat`. -/
def FCardinal.powOp (a b : FCardinal) : FCardinal :=
  ⟨a.value ^ b.value.toNat⟩

/-- `FCardinal.__pow__` with a modulus:
`FCardinal(pow(self.value, other.value, mod.value))`.  CPython raises
`ValueError` on a zero modulus; for a non-negative exponent the result
equals `(self.value ** other.value) % mod.value` with Python `%`
semantics (`Int.fmod`).  A negative exponent (which demands a modular
inverse) is outside the modelled domain and folded into the same guard. -/
def FCardinal.powModOp (a b m : FCardinal) : Except PyError FCardinal :=
  if m.value = 0 then .error .valueError
  else if b.value < 0 then .error .valueError
  else .ok ⟨(a.value ^ b.value.toNat).fmod m.value⟩

/-- `FCardinal.__lshift__`: `FCardinal(self.value << other.value)`.
Python raises `ValueError` on a negative shift count; otherwise
`a << n == a * 2**n`. -/
def FCardinal.lshiftOp (a b : FCardinal) : Except PyError FCardinal :=
  if b.value < 0 then .error .valueError
  else .ok ⟨a.value * 2 ^ b.value.toNat⟩

/-- `FCardinal.__rshift__`: `FCardinal(self.value >> other.value)`.
Python raises `ValueError` on a negative shift count; otherwise the
arithmetic shift `a >> n == a // 2**n` (flooring). -/
def FCardinal.rshiftOp (a b : FCardinal) : Except PyError FCardinal :=
  if b.value < 0 then .error .valueError
  else .ok ⟨a.value.fdiv (2 ^ b.value.toNat)⟩

/-- `FCardinal.__and__`: `FCardinal(self.value & other.value)` — Python
bitwise and on arbitrary (two's-complement) integers, i.e. `Int.land`. -/
def FCardinal.andOp (a b : FCardinal) : FCardinal :=
  ⟨Int.land a.value b.value⟩

/-- `FCardinal.__xor__`: `FCardinal(self.value ^ other.value)`, i.e.
`Int.xor`. -/
def FCardinal.xorOp (a b : FCardinal) : FCardinal :=
  ⟨Int.xor a.value b.value⟩

/-- `FCardinal.__or__`: `FCardinal(self.value | other.value)`, i.e.
`Int.lor`. -/
def FCardinal.orOp (a b : FCardinal) : FCardinal :=
  ⟨Int.lor a.value b.value⟩

/-- Flooring division of a nonzero integer by itself equals one. -/
theorem intFdivSelf (a : Int) (h : a ≠ 0) : a.fdiv a = 1 := by
  rcases a with (_ | n) | n
  · exact absurd rfl h
  · simp [Int.fdiv, Nat.div_self]
  · simp [Int.fdiv, Nat.div_self]

/-- Claim C1 (code bug): `FSet` equality is object identity, not
extensional equality of the element collections.  Two separate
constructions `FSet()` and `FSet()` yield distinct objects (addresses 0
and 1) whose element collections are identical (both empty, hence
structurally equal), yet `==` between them is false; and `FSet(0, 0)`
keeps two structurally equal empty-set elements (deduplication by
structural equality never happens, because the underlying `set.add`
compares with the identity `==`), so its length is 2, not 1. -/
theorem c1_equality_is_identity :
    fsetNew [] [] = .ok ([[]], 0) ∧
    fsetNew [] [[]] = .ok ([[], []], 1) ∧
    elemsOf [[], []] 0 = elemsOf [[], []] 1 ∧
    structEq 1 [[], []] 0 1 = true ∧
    fsetEq 0 1 = false ∧
    fsetNew [.pyInt 0, .pyInt 0] [] = .ok ([[], [], [0, 1]], 2) ∧
    structEq 1 [[], [], [0, 1]] 0 1 = true ∧
    fsetLength [[], [], [0, 1]] 2 = ⟨2⟩ := by decide

/-- Claim C2 (code bug): the constructor accepts finite native containers
and the integer `0`, and rejects nonzero integers (`ValueError`) and
other objects such as strings (`TypeError`) — but an **existing `FSet`
value** is also rejected with `TypeError` (no branch of the classifying
chain tests for it), so `FSet(FSet())` fails although the claim (and the
annotation `*args: FSet | list | tuple | set | frozenset | int` in the
source) says an existing HFS value is accepted as-is. -/
theorem c2_existing_fset_rejected :
    fsetNew [] [] = .ok ([[]], 0) ∧
    fsetNew [.fset 0] [[]] = .error .typeError ∧
    fsetNew [.pyList [.pyInt 0], .pyInt 0] [] = .ok ([[], [0], [], [1, 2]], 3) ∧
    fsetNew [.pyInt 3] [] = .error .valueError ∧
    fsetNew [.pyInt (-1)] [] = .error .valueError ∧
    fsetNew [.pyStr] [] = .error .typeError := by decide

/-- Claim C3 (code bug): `FCardinal(0).set` returns the empty set, but
`FCardinal(1).set` evaluates `FSet(FSet())`, whose inner empty set — an
existing `FSet` object — is rejected by the constructor with `TypeError`;
every magnitude `n ≥ 1` therefore raises instead of returning the
canonical von Neumann set. -/
theorem c3_card_set_raises :
    cardSet 0 [] = .ok ([[]], 0) ∧
    cardSet 1 [] = .error .typeError ∧
    cardSet 2 [] = .error .typeError := by decide

/-- Claim C4 (code bug): the round trip `FiniteCardinal(n).set.length ==
FiniteCardinal(n)` holds for `n = 0` (the empty set has length 0 and the
numeric comparison returns true) but raises `TypeError` already at
`FiniteCardinal(1).set`, so it fails for every `n ≥ 1`. -/
theorem c4_roundtrip_raises :
    cardSet 0 [] = .ok ([[]], 0) ∧
    FCardinal.eqOp (fsetLength [[]] 0) (.card ⟨0⟩) = .ok (.bool true) ∧
    cardSet 1 [] = .error .typeError := by decide

/-- Claim C5 (code bug): `FSet().power()` succeeds (the only combination
is the empty tuple) and has length 1 = 2 ^ 0, but for any nonempty set —
here the singleton `FSet(0)`, allocated at address 1 with element
collection `[0]` — the power set passes a combination containing an
existing `FSet` object to the constructor, which raises `TypeError`. -/
theorem c5_power_raises :
    fsetPower [[]] 0 = .ok ([[], [], [1]], 2) ∧
    fsetLength [[], [], [1]] 2 = ⟨1⟩ ∧
    fsetNew [.pyInt 0] [] = .ok ([[], [0]], 1) ∧
    fsetPower [[], [0]] 1 = .error .typeError := by decide

/-- Claim C6 (code bug): the Cartesian product of two empty sets succeeds
(no pairs, so the result is the empty set of length 0 = 0 * 0), but as
soon as both operands are nonempty — here `S = T = FSet(0)`, the
singleton at address 1 — the pair set `FSet(a, b)` receives existing
`FSet` objects and raises `TypeError`. -/
theorem c6_product_raises :
    fsetMul [[]] 0 0 = .ok ([[], []], 1) ∧
    fsetLength [[], []] 1 = ⟨0⟩ ∧
    fsetNew [.pyInt 0] [] = .ok ([[], [0]], 1) ∧
    fsetMul [[], [0]] 1 1 = .error .typeError := by decide

/-- Claim C7 (confirmed): for Finite Cardinals with nonzero magnitudes,
`divmod(a, b)` returns `(FCardinal(a.value // a.value),
FCardinal(a.value % b.value))` — the quotient component divides `self` by
`self` (hence always 1), not by `other`. -/
theorem c7_divmod_self_quotient (a b : FCardinal)
    (ha : a.value ≠ 0) (hb : b.value ≠ 0) :
    FCardinal.divmodOp a b = .ok (⟨a.value.fdiv a.value⟩, ⟨a.value.fmod b.value⟩) ∧
    a.value.fdiv a.value = 1 := by
  refine ⟨?_, intFdivSelf a.value ha⟩
  simp [FCardinal.divmodOp, ha, hb]

/-- Witness for C7 at `divmod(FCardinal(7), FCardinal(2))`: the quotient
component is `7 // 7 = 1` (not `7 // 2 = 3`), the remainder `7 % 2`. -/
theorem c7_divmod_self_quotient_witness :
    FCardinal.divmodOp ⟨7⟩ ⟨2⟩ = .ok (⟨(7 : Int).fdiv 7⟩, ⟨(7 : Int).fmod 2⟩) ∧
    (7 : Int).fdiv 7 = 1 :=
  c7_divmod_self_quotient ⟨7⟩ ⟨2⟩ (by decide) (by decide)

/-- Claim C8 (confirmed): every binary arithmetic and bitwise operation
on Finite Cardinals returns a new `FCardinal` whose magnitude is the
same Python integer operation applied to the operand magnitudes
(operands are untouched: the operations are pure functions producing a
fresh value), under the usual integer preconditions — nonzero divisor
for floor division and modulo, non-negative exponent, nonzero modulus,
non-negative shift count. -/
theorem c8_binary_ops (a b m : FCardinal) :
    (FCardinal.addOp a b).value = a.value + b.value ∧
    (FCardinal.subOp a b).value = a.value - b.value ∧
    (FCardinal.mulOp a b).value = a.value * b.value ∧
    (b.value ≠ 0 → FCardinal.floordivOp a b = .ok ⟨a.value.fdiv b.value⟩) ∧
    (b.value ≠ 0 → FCardinal.modOp a b = .ok ⟨a.value.fmod b.value⟩) ∧
    (FCardinal.powOp a b).value = a.value ^ b.value.toNat ∧
    (0 ≤ b.value → m.value ≠ 0 →
      FCardinal.powModOp a b m = .ok ⟨(a.value ^ b.value.toNat).fmod m.value⟩) ∧
    (0 ≤ b.value → FCardinal.lshiftOp a b = .ok ⟨a.value * 2 ^ b.value.toNat⟩) ∧
    (0 ≤ b.value → FCardinal.rshiftOp a b = .ok ⟨a.value.fdiv (2 ^ b.value.toNat)⟩) ∧
    (FCardinal.andOp a b).value = Int.land a.value b.value ∧
    (FCardinal.xorOp a b).value = Int.xor a.value b.value ∧
    (FCardinal.orOp a b).value = Int.lor a.value b.value := by
  refine ⟨rfl, rfl, rfl, fun h => ?_, fun h => ?_, rfl, fun h1 h2 => ?_,
    fun h => ?_, fun h => ?_, rfl, rfl, rfl⟩
  · simp [FCardinal.floordivOp, h]
  · simp [FCardinal.modOp, h]
  · simp [FCardinal.powModOp, h2, not_lt.mpr h1]
  · simp [FCardinal.lshiftOp, not_lt.mpr h]
  · simp [FCardinal.rshiftOp, not_lt.mpr h]

/-- Witness for C8 at magnitudes 7, 2 and modulus 3, with every
precondition discharged: `7 // 2 = 3`, `7 % 2 = 1`, `pow(7, 2, 3) = 1`,
`7 << 2 = 28`, `7 >> 2 = 1`, `7 + 2 = 9`. -/
theorem c8_binary_ops_witness :
    FCardinal.floordivOp ⟨7⟩ ⟨2⟩ = .ok ⟨3⟩ ∧
    FCardinal.modOp ⟨7⟩ ⟨2⟩ = .ok ⟨1⟩ ∧
    FCardinal.powModOp ⟨7⟩ ⟨2⟩ ⟨3⟩ = .ok ⟨1⟩ ∧
    FCardinal.lshiftOp ⟨7⟩ ⟨2⟩ = .ok ⟨28⟩ ∧
    FCardinal.rshiftOp ⟨7⟩ ⟨2⟩ = .ok ⟨1⟩ ∧
    (FCardinal.addOp ⟨7⟩ ⟨2⟩).value = 9 := by
  obtain ⟨h1, _, _, h4, h5, _, h7, h8, h9, _⟩ := c8_binary_ops ⟨7⟩ ⟨2⟩ ⟨3⟩
  exact ⟨(h4 (by decide)).trans (by decide), (h5 (by decide)).trans (by decide),
    (h7 (by decide) (by decide)).trans (by decide), (h8 (by decide)).trans (by decide),
    (h9 (by decide)).trans (by decide), h1.trans (by decide)⟩

/-- Claim C9 counterexample: on a Finite Cardinal the strict and
non-strict order comparisons do **not** report `NotImplemented` — they
are overridden numerically, so `FCardinal(0) < FCardinal(1)` computes the
boolean true. -/
theorem c9_lt_computes :
    FCardinal.ltOp ⟨0⟩ (.card ⟨1⟩) = .ok (.bool true) ∧
    FCardinal.ltOp ⟨0⟩ (.card ⟨1⟩) ≠ .ok .notImplemented ∧
    FCardinal.leOp ⟨0⟩ (.card ⟨1⟩) = .ok (.bool true) ∧
    FCardinal.leOp ⟨0⟩ (.card ⟨1⟩) ≠ .ok .notImplemented := by decide

/-- Claim C9 as amended: the fake-set base class `FFSet` returns
`NotImplemented` from containment, `<=` and `<`, and a Finite Cardinal
still reports `NotImplemented` for containment (inherited), but its `<=`
and `<` are overridden to compute the numeric comparison of the
magnitudes. -/
theorem c9_setlike_overrides (c d : FCardinal) (x : PyOperand) :
    FCardinal.containsOp c x = .ok .notImplemented ∧
    FFSet.leOp x = .ok .notImplemented ∧
    FFSet.ltOp x = .ok .notImplemented ∧
    FCardinal.leOp c (.card d) = .ok (.bool (decide (c.value ≤ d.value))) ∧
    FCardinal.ltOp c (.card d) = .ok (.bool (decide (c.value < d.value))) :=
  ⟨rfl, rfl, rfl, rfl, rfl⟩

/-- Claim C10 (confirmed): every comparison method of a Finite Cardinal
immediately accesses `other.value`, so comparing against any operand that
is not an `FCardinal` (a plain integer, a string, an `FSet` object)
raises `AttributeError` instead of returning a boolean or
`NotImplemented`. -/
theorem c10_comparison_attribute_error (c : FCardinal) (x : PyOperand)
    (h : x.isCard = false) :
    FCardinal.eqOp c x = .error .attributeError ∧
    FCardinal.neOp c x = .error .attributeError ∧
    FCardinal.ltOp c x = .error .attributeError ∧
    FCardinal.leOp c x = .error .attributeError ∧
    FCardinal.gtOp c x = .error .attributeError ∧
    FCardinal.geOp c x = .error .attributeError := by
  cases x with
  | card d => simp [PyOperand.isCard] at h
  | int n => exact ⟨rfl, rfl, rfl, rfl, rfl, rfl⟩
  | str => exact ⟨rfl, rfl, rfl, rfl, rfl, rfl⟩
  | fsetObj a => exact ⟨rfl, rfl, rfl, rfl, rfl, rfl⟩

/-- Witness for C10 at `FCardinal(0) == 0` (and the five other
comparisons against the plain integer 0): each raises `AttributeError`. -/
theorem c10_comparison_attribute_error_witness :
    FCardinal.eqOp ⟨0⟩ (.int 0) = .error .attributeError ∧
    FCardinal.neOp ⟨0⟩ (.int 0) = .error .attributeError ∧
    FCardinal.ltOp ⟨0⟩ (.int 0) = .error .attributeError ∧
    FCardinal.leOp ⟨0⟩ (.int 0) = .error .attributeError ∧
    FCardinal.gtOp ⟨0⟩ (.int 0) = .error .attributeError ∧
    FCardinal.geOp ⟨0⟩ (.int 0) = .error .attributeError :=
  c10_comparison_attribute_error ⟨0⟩ (.int 0) (by decide)
